import Mathlib

/-!
Shallow embedding of the Ghost-Project-Website detector core
(`alarm_system.py`, `ghost_analyzer.py`, `data_logger.py`).

Modelling conventions:
* Python floats are modelled as rationals (`ℚ`); all the thresholds and
  weights of the source are exact decimals, so no behaviour relevant to the
  verified properties depends on binary floating point.
* `datetime` values are modelled as integer seconds (`ℤ`); `.hour` is the
  derived hour-of-day.  ISO timestamps are only compared (total order) or
  projected to the hour, so this is faithful for the verified properties.
* Sources of randomness (`random.choice`, `random.uniform`) are passed as
  explicit parameters.
* The bounded rings (Python `list` truncation `xs[-cap:]` after append, and
  `deque(maxlen=cap)`) share one semantics, `boundedAppend`.
-/

namespace GhostDetector

/-- Python `xs[-cap:]` truncation after an append; also the semantics of a
`deque(maxlen := cap)` append.  Mirrors `_add_alert` / `_log_state_change`:
append, then keep the last `cap` entries when the capacity is exceeded. -/
def boundedAppend (cap : ℕ) (xs : List α) (x : α) : List α :=
  let ys := xs ++ [x]
  if cap < ys.length then ys.drop (ys.length - cap) else ys

/-- `AlarmLevel` enum of `alarm_system.py` (`NONE=0 < WARNING=1 < CRITICAL=2
< EMERGENCY=3`). -/
inductive AlarmLevel where
  | NONE
  | WARNING
  | CRITICAL
  | EMERGENCY
deriving DecidableEq

/-- The enum ordinal (`AlarmLevel.value` in the source). -/
def AlarmLevel.value : AlarmLevel → ℕ
  | .NONE => 0
  | .WARNING => 1
  | .CRITICAL => 2
  | .EMERGENCY => 3

/-- The part of an analysis dict read by the alarm system and the data
logger: `analysis['probability']` and `analysis.get('ghost_type')`. -/
structure Analysis where
  probability : ℚ
  ghost_type : Option String
deriving DecidableEq

/-- An entry of the `active_alerts` ring (`_add_alert`). -/
structure Alert where
  timestamp : ℤ
  message : String
  alertType : String
  acknowledged : Bool
deriving DecidableEq

/-- An entry of the `alarm_history` ring (`_log_state_change`). -/
structure TransitionRecord where
  timestamp : ℤ
  previous_state : AlarmLevel
  current_state : AlarmLevel
  probability : ℚ
  ghost_type : Option String
deriving DecidableEq

/-- The mutable state of `AlarmSystem` (lock and sound thread are I/O and
carry no data read by any operation). -/
structure AlarmSystem where
  alarm_state : AlarmLevel
  alarm_history : List TransitionRecord
  active_alerts : List Alert
deriving DecidableEq

/-- `AlarmSystem.__init__`. -/
def initialAlarm : AlarmSystem :=
  { alarm_state := .NONE, alarm_history := [], active_alerts := [] }

/-- `AlarmSystem._add_alert`: append to `active_alerts`, then keep only the
last 20. -/
def addAlert (s : AlarmSystem) (now : ℤ) (message alertType : String) :
    AlarmSystem :=
  { s with active_alerts :=
      boundedAppend 20 s.active_alerts ⟨now, message, alertType, false⟩ }

/-- `AlarmSystem._log_state_change`: append to `alarm_history`, then keep
only the last 100. -/
def logStateChange (s : AlarmSystem) (now : ℤ)
    (previous current : AlarmLevel) (analysis : Analysis) : AlarmSystem :=
  let record : TransitionRecord :=
    ⟨now, previous, current, analysis.probability, analysis.ghost_type⟩
  { s with alarm_history := boundedAppend 100 s.alarm_history record }

/-- `AlarmSystem.trigger_alarm`.  The `_play_alert_sound` call is a
fire-and-forget I/O side effect that reads no state and writes none, so it
has no image in the state transformer. -/
def trigger_alarm (s : AlarmSystem) (now : ℤ) (analysis : Analysis) :
    AlarmSystem :=
  let previous_state := s.alarm_state
  let s1 :=
    if 90 < analysis.probability then
      addAlert { s with alarm_state := .EMERGENCY } now
        "🚨 EMERGENCY: Extreme paranormal activity detected!" "emergency"
    else if 80 < analysis.probability then
      addAlert { s with alarm_state := .CRITICAL } now
        "⚠️ CRITICAL: Ghost confirmed - immediate attention required" "critical"
    else if 60 < analysis.probability then
      addAlert { s with alarm_state := .WARNING } now
        "📢 WARNING: Significant paranormal activity detected" "warning"
    else
      { s with alarm_state := .NONE }
  if previous_state ≠ s1.alarm_state then
    logStateChange s1 now previous_state s1.alarm_state analysis
  else s1

/-- The threshold table of `trigger_alarm` in isolation: the alarm level
determined by a probability alone. -/
def levelFor (p : ℚ) : AlarmLevel :=
  if 90 < p then .EMERGENCY
  else if 80 < p then .CRITICAL
  else if 60 < p then .WARNING
  else .NONE

/-! ### `ghost_analyzer.py` -/

/-- The six sensor channels. -/
inductive Channel where
  | emf
  | temperature
  | humidity
  | pressure
  | spectral
  | motion
deriving DecidableEq

/-- A sensor snapshot: the dict passed to `analyze` — a channel may be
absent (`sensor in data` false). -/
def Snapshot := Channel → Option ℚ

/-- The snapshot with no channels at all. -/
def emptySnapshot : Snapshot := fun _ => none

/-- `data.get(sensor, default)`. -/
def Snapshot.getD (data : Snapshot) (c : Channel) (default : ℚ) : ℚ :=
  (data c).getD default

/-- `evidence_weights` of `GhostAnalyzer.__init__`. -/
def evidenceWeight : Channel → ℚ
  | .emf => 30 / 100
  | .temperature => 25 / 100
  | .spectral => 25 / 100
  | .motion => 15 / 100
  | .humidity => 3 / 100
  | .pressure => 2 / 100

/-- Iteration order of the `evidence_weights` dict (insertion order). -/
def channelOrder : List Channel :=
  [.emf, .temperature, .spectral, .motion, .humidity, .pressure]

/-- `GhostAnalyzer._normalize_sensor`: normalize to `[0,1]` with fixed
ranges, temperature inverted, clamped. -/
def normalizeSensor (c : Channel) (value : ℚ) : ℚ :=
  let range : ℚ × ℚ :=
    match c with
    | .emf => (0, 100)
    | .temperature => (40, 90)
    | .humidity => (20, 80)
    | .pressure => (980, 1030)
    | .spectral => (0, 1000)
    | .motion => (0, 100)
  let normalized :=
    if c = .temperature then
      1 - ((value - range.1) / (range.2 - range.1))
    else
      (value - range.1) / (range.2 - range.1)
  max 0 (min 1 normalized)

/-- The accumulation loop of `_calculate_probability`: `(score,
total_weight)` after folding the present channels in dict order. -/
def weightedScore (data : Snapshot) : ℚ × ℚ :=
  channelOrder.foldl
    (fun acc c =>
      match data c with
      | some v =>
          (acc.1 + normalizeSensor c v * evidenceWeight c,
           acc.2 + evidenceWeight c)
      | none => acc)
    (0, 0)

/-- `GhostAnalyzer._analyze_patterns`.  The stored history is modelled by
the list of stored probabilities (`h['probability']`, most recent last),
the only field the scoring engine reads back. -/
def analyzePatterns (history : List ℚ) : ℚ :=
  if history.length < 10 then 0
  else
    let probabilities := history.drop (history.length - 10)
    if 1 < probabilities.length then
      let trend := probabilities.getLastD 0 - probabilities.headD 0
      if 20 < trend then 15
      else if 10 < trend then 8
      else 0
    else 0

/-- The time-based modifier of `_calculate_probability` as a function of
`datetime.now().hour`. -/
def timeModifier (hour : ℕ) : ℚ :=
  if hour < 6 ∨ 20 < hour then 15
  else if hour < 8 ∨ 18 < hour then 5
  else 0

/-- `GhostAnalyzer._calculate_probability`, with the ambient state
(`datetime.now().hour` and the stored history) passed explicitly. -/
def calculateProbability (data : Snapshot) (hour : ℕ) (history : List ℚ) :
    ℚ :=
  let sw := weightedScore data
  let base_probability := if 0 < sw.2 then sw.1 / sw.2 * 100 else 0
  let probability :=
    base_probability + timeModifier hour + analyzePatterns history
  max 0 (min 100 probability)

/-- Python `round(q, 1)`.  (Python rounds exact halves to even; no verified
property evaluates `round` at an exact half, so nearest-with-halves-up is
an adequate model.) -/
def roundTo1 (q : ℚ) : ℚ := (round (q * 10) : ℤ) / 10

/-- `GhostAnalyzer._identify_ghost_type`; `randType` stands for
`random.choice(self.ghost_types)` in the fallback branch. -/
def identifyGhostType (data : Snapshot) (randType : String) : String :=
  let emfHigh := 70 < data.getD .emf 0
  let cold := data.getD .temperature 72 < 50
  let highFreq := 600 < data.getD .spectral 0
  let active := 60 < data.getD .motion 0
  if cold ∧ highFreq then "Wraith"
  else if emfHigh ∧ active then "Poltergeist"
  else if highFreq then "Specter"
  else if cold then "Phantom"
  else if active then "Apparition"
  else randType

/-- One evidence string of `_gather_evidence` (the embedded reading kept as
the payload of the corresponding f-string). -/
inductive Evidence where
  | emfSpike (v : ℚ)
  | coldSpot (v : ℚ)
  | spectralAnomaly (v : ℚ)
  | motionDetected (v : ℚ)
  | humiditySurge (v : ℚ)
  | pressureDrop (v : ℚ)
deriving DecidableEq

/-- `GhostAnalyzer._gather_evidence`: the gated appends, truncated to the
first 5 (`evidence[:5]`). -/
def gatherEvidence (data : Snapshot) : List Evidence :=
  let evidence :=
    (if 50 < data.getD .emf 0 then [Evidence.emfSpike (data.getD .emf 0)]
     else []) ++
    (if data.getD .temperature 72 < 55 then
       [Evidence.coldSpot (data.getD .temperature 72)]
     else []) ++
    (if 500 < data.getD .spectral 0 then
       [Evidence.spectralAnomaly (data.getD .spectral 0)]
     else []) ++
    (if 50 < data.getD .motion 0 then
       [Evidence.motionDetected (data.getD .motion 0)]
     else []) ++
    (if 65 < data.getD .humidity 45 then
       [Evidence.humiditySurge (data.getD .humidity 45)]
     else []) ++
    (if data.getD .pressure 1013 < 995 then
       [Evidence.pressureDrop (data.getD .pressure 1013)]
     else [])
  evidence.take 5

/-- The per-channel thresholds of `_calculate_confidence`'s correlation
loop. -/
def confidenceThresholds : List (Channel × ℚ) :=
  [(.emf, 60), (.temperature, 55), (.spectral, 500), (.motion, 60)]

/-- `sensors_triggered` of `_calculate_confidence`. -/
def sensorsTriggered (data : Snapshot) : ℕ :=
  confidenceThresholds.countP (fun p => decide (p.2 < data.getD p.1 0))

/-- `GhostAnalyzer._calculate_confidence`; `randConf` stands for
`random.uniform(5, 15)`. -/
def calculateConfidence (data : Snapshot) (history : List ℚ)
    (randConf : ℚ) : ℚ :=
  let factors : List ℚ := [(sensorsTriggered data : ℚ) * 15]
  let factors :=
    if 5 < history.length then
      let recent_detections :=
        (history.drop (history.length - 5)).countP (fun p => decide (50 < p))
      factors ++ [(recent_detections : ℚ) * 8]
    else factors
  let factors := factors ++ [randConf]
  min 100 factors.sum

/-- `GhostAnalyzer._generate_recommendations` (reads the rounded
probability stored in the analysis dict). -/
def generateRecommendations (prob : ℚ) : List String :=
  if 80 < prob then
    ["⚠️ IMMEDIATE EVACUATION RECOMMENDED",
     "Contact paranormal investigation team",
     "Set up additional recording equipment"]
  else if 60 < prob then
    ["Maintain observation - activity increasing",
     "Deploy backup sensors",
     "Document all readings"]
  else if 40 < prob then
    ["Continue monitoring",
     "Check sensor calibration",
     "Note environmental conditions"]
  else
    ["Normal conditions",
     "Perform routine sensor check"]

/-- The analysis dict returned by `GhostAnalyzer.analyze` (timestamp
omitted: it is never read back). -/
structure AnalysisResult where
  probability : ℚ
  ghost_type : Option String
  evidence : List Evidence
  confidence : ℚ
  activity_level : String
  recommendations : List String
deriving DecidableEq

/-- `GhostAnalyzer.analyze` on a given pre-call history: the returned
analysis dict.  `randType` / `randConf` are the random draws. -/
def analyzeResult (data : Snapshot) (hour : ℕ) (history : List ℚ)
    (randType : String) (randConf : ℚ) : AnalysisResult :=
  let probability := calculateProbability data hour history
  let activity_level :=
    if probability < 30 then "Low"
    else if probability < 60 then "Moderate"
    else if probability < 80 then "High"
    else "Critical"
  if 40 < probability then
    { probability := roundTo1 probability
      ghost_type := some (identifyGhostType data randType)
      evidence := gatherEvidence data
      confidence := roundTo1 (calculateConfidence data history randConf)
      activity_level := activity_level
      recommendations := generateRecommendations (roundTo1 probability) }
  else
    { probability := roundTo1 probability
      ghost_type := none
      evidence := []
      confidence := 0
      activity_level := activity_level
      recommendations := [] }

/-- `GhostAnalyzer.analyze` including the `self.history.append(analysis)`
on the capacity-50 ring: result together with the updated stored
probabilities. -/
def analyzeStep (data : Snapshot) (hour : ℕ) (history : List ℚ)
    (randType : String) (randConf : ℚ) : AnalysisResult × List ℚ :=
  let r := analyzeResult data hour history randType randConf
  (r, boundedAppend 50 history r.probability)

/-! ### `data_logger.py` -/

/-- Hour of day of a timestamp modelled as integer seconds. -/
def hourOf (t : ℤ) : ℕ := ((t % 86400) / 3600).toNat

/-- An entry of the `logs` ring (`log_reading`). -/
structure LogEntry where
  timestamp : ℤ
  sensors : Snapshot
  analysis : Analysis

/-- An entry of the `events` ring (`log_event`): the top-level `type` and
the `type` key of the wrapped `data` payload (the latter is what
`get_events` filters on). -/
structure EventEntry where
  timestamp : ℤ
  etype : String
  dataType : Option String
deriving DecidableEq

/-- The mutable rings of `DataLogger` (`deque(maxlen=1000)` /
`deque(maxlen=500)`). -/
structure DataLogger where
  logs : List LogEntry
  events : List EventEntry

/-- `DataLogger.__init__` before `_load_logs` finds a file. -/
def initialLogger : DataLogger := { logs := [], events := [] }

/-- `DataLogger.log_event`. -/
def logEvent (dl : DataLogger) (e : EventEntry) : DataLogger :=
  { dl with events := boundedAppend 500 dl.events e }

/-- `DataLogger.log_reading`: append the reading to the capacity-1000 log
ring and, when `analysis['probability'] > 60`, a `significant_detection`
event to the capacity-500 event ring. -/
def logReading (dl : DataLogger) (now : ℤ) (sensors : Snapshot)
    (analysis : Analysis) : DataLogger :=
  let entry : LogEntry := ⟨now, sensors, analysis⟩
  let dl1 := { dl with logs := boundedAppend 1000 dl.logs entry }
  if 60 < analysis.probability then
    logEvent dl1 ⟨now, "significant_detection", some "significant_detection"⟩
  else dl1

/-- Python slice `xs[-n:]` (for `n = 0` this is the whole list). -/
def pyTail (n : ℕ) (xs : List α) : List α :=
  if n = 0 then xs else xs.drop (xs.length - n)

/-- `DataLogger.get_events`: truncate to the `limit` most recent events,
then (when a type is requested) filter on the payload's `type`. -/
def getEvents (events : List EventEntry) (event_type : Option String)
    (limit : ℕ) : List EventEntry :=
  match event_type with
  | some t => (pyTail limit events).filter (fun e => e.dataType = some t)
  | none => pyTail limit events

/-- Insertion-order dict update `d[k] = d.get(k, 0) + 1`. -/
def bumpKey [DecidableEq κ] (tbl : List (κ × ℕ)) (k : κ) : List (κ × ℕ) :=
  if tbl.any (fun p => p.1 = k) then
    tbl.map (fun p => if p.1 = k then (p.1, p.2 + 1) else p)
  else tbl ++ [(k, 1)]

/-- The `hour_count` dict of `_get_most_active_hour`, in insertion order. -/
def hourCounts (logs : List LogEntry) : List (ℕ × ℕ) :=
  logs.foldl (fun tbl log => bumpKey tbl (hourOf log.timestamp)) []

/-- Python `max(..., key=...)` step: keep the current item unless the new
one is strictly greater. -/
def pickMax (b p : ℕ × ℕ) : ℕ × ℕ := if b.2 < p.2 then p else b

/-- `DataLogger._get_most_active_hour`: the `(hour, count)` pair formatted
into the returned string, `none` for the `"Unknown"` branch. -/
def getMostActiveHour (logs : List LogEntry) : Option (ℕ × ℕ) :=
  match hourCounts logs with
  | [] => none
  | x :: xs => some (xs.foldl pickMax x)

/-- The in-window filter of `generate_report`. -/
def recentLogs (logs : List LogEntry) (now : ℤ) (hours : ℕ) :
    List LogEntry :=
  logs.filter (fun log => now - (hours : ℤ) * 3600 < log.timestamp)

/-- Python `max(xs)` / `min(xs)` with the source's `if xs else 0` guard. -/
def listMaxD : List ℚ → ℚ
  | [] => 0
  | x :: xs => xs.foldl max x

/-- Python `min(xs)` with the source's `if xs else 0` guard. -/
def listMinD : List ℚ → ℚ
  | [] => 0
  | x :: xs => xs.foldl min x

/-- The report dict of `generate_report` (the fixed `period`/`generated`
presentation strings omitted). -/
structure Report where
  total_readings : ℕ
  avg_activity : ℚ
  total_detections : ℕ
  max_probability : ℚ
  min_probability : ℚ
  ghost_type_breakdown : List (String × ℕ)
  most_active_hour : Option (ℕ × ℕ)
deriving DecidableEq

/-- `DataLogger.generate_report`. -/
def generateReport (logs : List LogEntry) (now : ℤ) (hours : ℕ) :
    Except String Report :=
  let recent := recentLogs logs now hours
  if recent.isEmpty then Except.error "No data available for this period"
  else
    let probabilities := recent.map (fun log => log.analysis.probability)
    let avg_probability :=
      if probabilities.isEmpty then 0
      else probabilities.sum / (probabilities.length : ℚ)
    let detections :=
      recent.filter (fun log => 50 < log.analysis.probability)
    let ghost_types :=
      detections.foldl
        (fun tbl log =>
          match log.analysis.ghost_type with
          | some g => bumpKey tbl g
          | none => tbl)
        []
    Except.ok
      { total_readings := recent.length
        avg_activity := roundTo1 avg_probability
        total_detections := detections.length
        max_probability := listMaxD probabilities
        min_probability := listMinD probabilities
        ghost_type_breakdown := ghost_types
        most_active_hour := getMostActiveHour recent }

/-- The claimed shape of the confidence computation (built from the claim's
words, to be compared with `calculateConfidence`): channel term plus a
history term contributed "for any history containing at least 5 entries",
plus the random term, clamped to `[0,100]`. -/
def confidenceClaimed (data : Snapshot) (history : List ℚ)
    (randConf : ℚ) : ℚ :=
  let histTerm : ℚ :=
    if 5 ≤ history.length then
      ((history.drop (history.length - 5)).countP
        (fun p => decide (50 < p)) : ℚ) * 8
    else 0
  max 0 (min 100 ((sensorsTriggered data : ℚ) * 15 + histTerm + randConf))

/-! ### Helper lemmas -/

theorem boundedAppend_eq_drop (cap : ℕ) (xs : List α) (x : α) :
    boundedAppend cap xs x = (xs ++ [x]).drop (xs.length + 1 - cap) := by
  simp only [boundedAppend, List.length_append, List.length_singleton]
  split
  · rfl
  · next h =>
    have hz : xs.length + 1 - cap = 0 := by omega
    simp [hz]

theorem boundedAppend_length (cap : ℕ) (xs : List α) (x : α) :
    (boundedAppend cap xs x).length = min (xs.length + 1) cap := by
  rw [boundedAppend_eq_drop, List.length_drop]
  simp only [List.length_append, List.length_singleton]
  omega

theorem foldl_boundedAppend (cap : ℕ) (es : List α) (acc : List α)
    (hacc : acc.length ≤ cap) :
    es.foldl (boundedAppend cap) acc =
      (acc ++ es).drop (acc.length + es.length - cap) := by
  induction es generalizing acc with
  | nil =>
      have hz : acc.length - cap = 0 := by omega
      simp [hz]
  | cons e es ih =>
      rw [List.foldl_cons,
        ih (boundedAppend cap acc e)
          (by rw [boundedAppend_length]; omega),
        boundedAppend_length, boundedAppend_eq_drop]
      rw [← List.drop_append_of_le_length
        (by simp only [List.length_append, List.length_singleton]; omega)]
      rw [List.drop_drop]
      rw [List.append_assoc, List.singleton_append]
      congr 1
      simp only [List.length_cons]
      omega

theorem foldl_boundedAppend_nil (cap : ℕ) (es : List α) :
    es.foldl (boundedAppend cap) [] = es.drop (es.length - cap) := by
  simpa using foldl_boundedAppend cap es [] (Nat.zero_le cap)

theorem addAlert_alarm_state (s : AlarmSystem) (now : ℤ) (m t : String) :
    (addAlert s now m t).alarm_state = s.alarm_state := rfl

theorem addAlert_alerts_length (s : AlarmSystem) (now : ℤ) (m t : String) :
    (addAlert s now m t).active_alerts.length =
      min (s.active_alerts.length + 1) 20 :=
  boundedAppend_length 20 s.active_alerts _

theorem logStateChange_alarm_state (s : AlarmSystem) (now : ℤ)
    (p c : AlarmLevel) (a : Analysis) :
    (logStateChange s now p c a).alarm_state = s.alarm_state := rfl

theorem logStateChange_alerts (s : AlarmSystem) (now : ℤ)
    (p c : AlarmLevel) (a : Analysis) :
    (logStateChange s now p c a).active_alerts = s.active_alerts := rfl

theorem trigger_alarm_state (s : AlarmSystem) (now : ℤ) (a : Analysis) :
    (trigger_alarm s now a).alarm_state = levelFor a.probability := by
  simp only [trigger_alarm, levelFor]
  split_ifs <;> rfl

theorem trigger_alarm_alerts_length (s : AlarmSystem) (now : ℤ)
    (a : Analysis) :
    (trigger_alarm s now a).active_alerts.length =
      if 60 < a.probability then min (s.active_alerts.length + 1) 20
      else s.active_alerts.length := by
  simp only [trigger_alarm]
  split_ifs <;>
    first
      | (exfalso; linarith)
      | simp [logStateChange, addAlert, boundedAppend_length]

theorem trigger_alarm_history_length (s : AlarmSystem) (now : ℤ)
    (a : Analysis) :
    (trigger_alarm s now a).alarm_history.length =
      if s.alarm_state = levelFor a.probability then s.alarm_history.length
      else min (s.alarm_history.length + 1) 100 := by
  simp only [trigger_alarm, levelFor]
  split_ifs <;>
    simp_all [logStateChange, addAlert, boundedAppend_length]

/-! ### Claims -/

/-- Claim C1, counterexample: starting from the fresh alarm system, a call
with probability 95 reaches EMERGENCY with one alert; the next call with
probability 65 moves the state down to WARNING, records the transition —
and, contrary to the claim, appends a second alert. -/
theorem C1_counterexample :
    (trigger_alarm initialAlarm 0 ⟨95, some "Poltergeist"⟩).alarm_state =
        AlarmLevel.EMERGENCY ∧
    (trigger_alarm initialAlarm 0
        ⟨95, some "Poltergeist"⟩).active_alerts.length = 1 ∧
    (trigger_alarm (trigger_alarm initialAlarm 0 ⟨95, some "Poltergeist"⟩) 1
        ⟨65, none⟩).alarm_state = AlarmLevel.WARNING ∧
    (trigger_alarm (trigger_alarm initialAlarm 0 ⟨95, some "Poltergeist"⟩) 1
        ⟨65, none⟩).alarm_history.length = 2 ∧
    (trigger_alarm (trigger_alarm initialAlarm 0 ⟨95, some "Poltergeist"⟩) 1
        ⟨65, none⟩).active_alerts.length = 2 := by
  decide

/-- Claim C1 (amended): `trigger_alarm` appends a new Alert to the alert
ring if and only if the newly computed level is not NONE (probability
strictly above 60), independent of the previous level; a transition record
is appended exactly when the level actually changes.  In particular the
EMERGENCY(95) → WARNING(65) call appends both a transition record and a
new alert. -/
theorem C1_alert_append_iff (s : AlarmSystem) (now : ℤ) (a : Analysis) :
    (trigger_alarm s now a).active_alerts.length =
      (if 60 < a.probability then min (s.active_alerts.length + 1) 20
       else s.active_alerts.length) ∧
    (trigger_alarm s now a).alarm_history.length =
      (if s.alarm_state = levelFor a.probability then s.alarm_history.length
       else min (s.alarm_history.length + 1) 100) :=
  ⟨trigger_alarm_alerts_length s now a, trigger_alarm_history_length s now a⟩

/-- Claim C2, counterexample: probability exactly 90.0 does not take the
WARNING path — `90 > 90` is false and `90 > 80` is true, so the state is
set to CRITICAL. -/
theorem C2_counterexample :
    (trigger_alarm initialAlarm 0 ⟨90, none⟩).alarm_state =
        AlarmLevel.CRITICAL ∧
    AlarmLevel.CRITICAL ≠ AlarmLevel.WARNING := by
  decide

/-- Claim C2 (amended): `trigger_alarm` sets the alarm state from the
probability alone by the strict thresholds `>90` EMERGENCY, `>80`
CRITICAL, `>60` WARNING, else NONE, independent of the previous state; in
particular probability exactly 90.0 takes the CRITICAL path (strict `>`
everywhere, never `≥`) and probability 90.1 gives EMERGENCY. -/
theorem C2_threshold_table (s : AlarmSystem) (now : ℤ) (a : Analysis) :
    (trigger_alarm s now a).alarm_state = levelFor a.probability ∧
    (trigger_alarm s now ⟨90, a.ghost_type⟩).alarm_state =
      AlarmLevel.CRITICAL ∧
    (trigger_alarm s now ⟨901 / 10, a.ghost_type⟩).alarm_state =
      AlarmLevel.EMERGENCY := by
  refine ⟨trigger_alarm_state s now a, ?_, ?_⟩
  · rw [trigger_alarm_state]
    norm_num [levelFor]
  · rw [trigger_alarm_state]
    norm_num [levelFor]

theorem gatherEvidence_length_le (data : Snapshot) :
    (gatherEvidence data).length ≤ 5 := by
  simp only [gatherEvidence]
  exact List.length_take_le 5 _

/-- Claim C3: for every snapshot — including the empty one with no
channels — the computed probability lies in `[0,100]`; with zero
contributing channels the zero total weight is guarded, the base
probability is 0, and only the clamped modifiers remain. -/
theorem C3_probability_bounds (data : Snapshot) (hour : ℕ)
    (history : List ℚ) :
    (0 ≤ calculateProbability data hour history ∧
     calculateProbability data hour history ≤ 100) ∧
    (weightedScore emptySnapshot).2 = 0 ∧
    calculateProbability emptySnapshot hour history =
      max 0 (min 100 (timeModifier hour + analyzePatterns history)) := by
  refine ⟨⟨le_max_left _ _, max_le (by norm_num) (min_le_left _ _)⟩, rfl, ?_⟩
  have hsw : weightedScore emptySnapshot = (0, 0) := rfl
  simp [calculateProbability, hsw]

/-- Claim C4: the ghost type, evidence, confidence and recommendations of
an analysis result are left at their empty defaults exactly when the
computed probability does not strictly exceed 40 (so probability exactly
40.0 leaves them empty), and the evidence list never has more than 5
entries. -/
theorem C4_populated_iff (data : Snapshot) (hour : ℕ) (history : List ℚ)
    (randType : String) (randConf : ℚ) :
    (((analyzeResult data hour history randType randConf).ghost_type =
          none ∧
      (analyzeResult data hour history randType randConf).evidence = [] ∧
      (analyzeResult data hour history randType randConf).confidence = 0 ∧
      (analyzeResult data hour history randType randConf).recommendations =
        []) ↔
      ¬ 40 < calculateProbability data hour history) ∧
    (analyzeResult data hour history randType randConf).evidence.length ≤
      5 := by
  constructor
  · simp only [analyzeResult]
    split_ifs with h <;> simp [h]
  · simp only [analyzeResult]
    split_ifs <;> simp [gatherEvidence_length_le]

/-- Claim C5: the trend modifier is 0 for fewer than 10 stored entries;
otherwise, with delta the most recent stored probability minus the
10th-most-recent one, it is 15 when delta > 20, 8 when 10 < delta ≤ 20,
and 0 otherwise. -/
theorem C5_trend_modifier (history : List ℚ) :
    analyzePatterns history =
      if history.length < 10 then 0
      else
        if 20 < history.getD (history.length - 1) 0 -
            history.getD (history.length - 10) 0 then 15
        else if 10 < history.getD (history.length - 1) 0 -
            history.getD (history.length - 10) 0 then 8
        else 0 := by
  unfold analyzePatterns
  by_cases h : history.length < 10
  · simp [h]
  · have hlen : (history.drop (history.length - 10)).length = 10 := by
      rw [List.length_drop]; omega
    have hhead : (history.drop (history.length - 10)).headD 0 =
        history.getD (history.length - 10) 0 := by
      rw [List.headD_eq_head?_getD, List.head?_eq_getElem?,
        List.getElem?_drop, List.getD_eq_getElem?_getD, Nat.add_zero]
    have hlast : (history.drop (history.length - 10)).getLastD 0 =
        history.getD (history.length - 1) 0 := by
      rw [List.getLastD_eq_getLast?, List.getLast?_eq_getElem?,
        List.getElem?_drop, List.getD_eq_getElem?_getD, hlen]
      have hidx : history.length - 10 + (10 - 1) = history.length - 1 := by
        omega
      rw [hidx]
    simp only [if_neg h, hlen, hhead, hlast]
    norm_num

/-- Claim C6, counterexample: with a history of exactly 5 entries of
probability 100, no sensors and random draw 10, the code's guard
`len(history) > 5` skips the history term and yields 10, while the claimed
formula (history term for any history with at least 5 entries) yields
5·8 + 10 = 50. -/
theorem C6_counterexample :
    calculateConfidence emptySnapshot [100, 100, 100, 100, 100] 10 = 10 ∧
    confidenceClaimed emptySnapshot [100, 100, 100, 100, 100] 10 = 50 ∧
    calculateConfidence emptySnapshot [100, 100, 100, 100, 100] 10 ≠
      confidenceClaimed emptySnapshot [100, 100, 100, 100, 100] 10 := by
  have h1 : calculateConfidence emptySnapshot [100, 100, 100, 100, 100] 10 =
      10 := by
    norm_num [calculateConfidence, sensorsTriggered, confidenceThresholds,
      Snapshot.getD, emptySnapshot, min_def, List.sum_append, List.sum_cons,
      List.sum_nil, List.countP_cons, List.countP_nil]
  have h2 : confidenceClaimed emptySnapshot [100, 100, 100, 100, 100] 10 =
      50 := by
    norm_num [confidenceClaimed, sensorsTriggered, confidenceThresholds,
      Snapshot.getD, emptySnapshot, min_def, max_def, List.countP_cons,
      List.countP_nil]
  refine ⟨h1, h2, ?_⟩
  rw [h1, h2]
  norm_num

/-- Claim C6 (amended): the confidence equals the count of channels among
emf>60, temperature>55, spectral>500, motion>60 exceeding their threshold
times 15, plus — only when the history holds strictly more than 5 entries
— the count of the last 5 stored probabilities above 50 times 8, plus the
random value, clamped to `[0,100]`. -/
theorem C6_confidence_formula (data : Snapshot) (history : List ℚ)
    (randConf : ℚ) (h : 5 ≤ randConf) :
    calculateConfidence data history randConf =
      max 0 (min 100 ((sensorsTriggered data : ℚ) * 15 +
        (if 5 < history.length then
          ((history.drop (history.length - 5)).countP
            (fun p => decide (50 < p)) : ℚ) * 8
         else 0) + randConf)) := by
  have hmax : ∀ x : ℚ, 0 ≤ x → max 0 (min 100 x) = min 100 x := by
    intro x hx
    exact max_eq_right (le_min (by norm_num) hx)
  have ht : (0 : ℚ) ≤ (sensorsTriggered data : ℚ) * 15 := by positivity
  simp only [calculateConfidence]
  split_ifs with hlen
  · have hc : (0 : ℚ) ≤
        ((history.drop (history.length - 5)).countP
          (fun p => decide (50 < p)) : ℚ) * 8 := by positivity
    rw [hmax _ (by linarith)]
    simp only [List.sum_append, List.sum_cons, List.sum_nil]
    ring_nf
  · rw [hmax _ (by linarith)]
    simp only [List.sum_append, List.sum_cons, List.sum_nil]
    ring_nf

/-- Claim C6 witness: the amended formula evaluated on the empty snapshot,
empty history and random draw 10. -/
theorem C6_confidence_formula_witness :
    (5 : ℚ) ≤ 10 ∧
    calculateConfidence emptySnapshot [] 10 =
      max 0 (min 100 ((sensorsTriggered emptySnapshot : ℚ) * 15 +
        (if 5 < ([] : List ℚ).length then
          ((([] : List ℚ).drop (([] : List ℚ).length - 5)).countP
            (fun p => decide (50 < p)) : ℚ) * 8
         else 0) + 10)) :=
  ⟨by norm_num, C6_confidence_formula emptySnapshot [] 10 (by norm_num)⟩

/-- Claim C7: each ring-append keeps its ring within its capacity
(alerts 20, transitions 100, logs 1000, events 500), and inserting any
sequence of entries into an empty ring leaves exactly the most recent
`capacity` entries, in order (oldest evicted first). -/
theorem C7_ring_capacities :
    (∀ (s : AlarmSystem) (now : ℤ) (m t : String),
      (addAlert s now m t).active_alerts.length ≤ 20) ∧
    (∀ (s : AlarmSystem) (now : ℤ) (p c : AlarmLevel) (a : Analysis),
      (logStateChange s now p c a).alarm_history.length ≤ 100) ∧
    (∀ (dl : DataLogger) (now : ℤ) (sd : Snapshot) (a : Analysis),
      (logReading dl now sd a).logs.length ≤ 1000 ∧
      (dl.events.length ≤ 500 →
        (logReading dl now sd a).events.length ≤ 500)) ∧
    (∀ (dl : DataLogger) (e : EventEntry),
      (logEvent dl e).events.length ≤ 500) ∧
    (∀ (α : Type) (cap : ℕ) (es : List α),
      es.foldl (boundedAppend cap) [] = es.drop (es.length - cap)) := by
  refine ⟨?_, ?_, ?_, ?_, ?_⟩
  · intro s now m t
    rw [addAlert_alerts_length]
    exact min_le_right _ _
  · intro s now p c a
    simp only [logStateChange, boundedAppend_length]
    exact min_le_right _ _
  · intro dl now sd a
    constructor
    · simp only [logReading, logEvent]
      split_ifs <;>
        simp only [boundedAppend_length] <;> exact min_le_right _ _
    · intro hev
      simp only [logReading, logEvent]
      split_ifs
      · simp only [boundedAppend_length]
        exact min_le_right _ _
      · exact hev
  · intro dl e
    simp only [logEvent, boundedAppend_length]
    exact min_le_right _ _
  · intro α cap es
    exact foldl_boundedAppend_nil cap es

/-- Claim C7 witness: the conditional events bound applied to the freshly
constructed logger and a probability-70 reading. -/
theorem C7_ring_capacities_witness :
    initialLogger.events.length ≤ 500 ∧
    (logReading initialLogger 0 emptySnapshot ⟨70, none⟩).events.length ≤
      500 :=
  ⟨by simp [initialLogger],
   (C7_ring_capacities.2.2.1 initialLogger 0 emptySnapshot ⟨70, none⟩).2
     (by simp [initialLogger])⟩

/-- Claim C8: `generate_report` returns the explicit no-data result
exactly when no log entry falls inside the trailing window; on a non-empty
window it returns a success report carrying the count, mean, min and max
probability and the other statistics of the in-window entries. -/
theorem C8_report_empty_window (logs : List LogEntry) (now : ℤ)
    (hours : ℕ) :
    (generateReport logs now hours =
        Except.error "No data available for this period" ↔
      recentLogs logs now hours = []) ∧
    (∀ r, generateReport logs now hours = Except.ok r →
      recentLogs logs now hours ≠ [] ∧
      r.total_readings = (recentLogs logs now hours).length ∧
      r.avg_activity = roundTo1
        (((recentLogs logs now hours).map
            (fun log => log.analysis.probability)).sum /
          ((recentLogs logs now hours).length : ℚ)) ∧
      r.max_probability = listMaxD
        ((recentLogs logs now hours).map
          (fun log => log.analysis.probability)) ∧
      r.min_probability = listMinD
        ((recentLogs logs now hours).map
          (fun log => log.analysis.probability)) ∧
      r.total_detections = ((recentLogs logs now hours).filter
        (fun log => 50 < log.analysis.probability)).length ∧
      r.most_active_hour = getMostActiveHour (recentLogs logs now hours)) := by
  constructor
  · simp only [generateReport]
    split_ifs with hemp
    · simp only [List.isEmpty_iff] at hemp
      simp [hemp]
    · simp only [List.isEmpty_iff] at hemp
      simp [hemp]
  · intro r hr
    simp only [generateReport] at hr
    split_ifs at hr with hemp hpe
    · exfalso
      simp only [List.isEmpty_iff, List.map_eq_nil_iff] at hemp hpe
      exact hemp hpe
    · simp only [List.isEmpty_iff] at hemp
      rw [Except.ok.injEq] at hr
      subst hr
      refine ⟨hemp, rfl, ?_, rfl, rfl, rfl, rfl⟩
      simp [List.length_map]

/-- Claim C8 witness: a single log entry inside a 24-hour window produces a
success report with the corresponding statistics. -/
theorem C8_report_empty_window_witness :
    generateReport [⟨0, emptySnapshot, ⟨70, some "Wraith"⟩⟩] 1000 24 =
      Except.ok
        { total_readings := 1
          avg_activity := 70
          total_detections := 1
          max_probability := 70
          min_probability := 70
          ghost_type_breakdown := [("Wraith", 1)]
          most_active_hour := some (0, 1) } ∧
    recentLogs [⟨0, emptySnapshot, ⟨70, some "Wraith"⟩⟩] 1000 24 ≠ [] ∧
    Report.total_readings
        { total_readings := 1
          avg_activity := 70
          total_detections := 1
          max_probability := 70
          min_probability := 70
          ghost_type_breakdown := [("Wraith", 1)]
          most_active_hour := some (0, 1) } =
      (recentLogs [⟨0, emptySnapshot, ⟨70, some "Wraith"⟩⟩] 1000 24).length := by
  have hok : generateReport [⟨0, emptySnapshot, ⟨70, some "Wraith"⟩⟩]
      1000 24 =
      Except.ok
        { total_readings := 1
          avg_activity := 70
          total_detections := 1
          max_probability := 70
          min_probability := 70
          ghost_type_breakdown := [("Wraith", 1)]
          most_active_hour := some (0, 1) } := by
    norm_num [generateReport, recentLogs, listMaxD, listMinD, roundTo1,
      getMostActiveHour, hourCounts, bumpKey, hourOf, round_eq,
      List.filter, List.isEmpty]
  have hmain := (C8_report_empty_window
    [⟨0, emptySnapshot, ⟨70, some "Wraith"⟩⟩] 1000 24).2 _ hok
  exact ⟨hok, hmain.1, hmain.2.1⟩

theorem hourOf_lt (t : ℤ) : hourOf t < 24 := by
  unfold hourOf
  omega

theorem bumpKey_keys [DecidableEq κ] (P : κ → Prop) (tbl : List (κ × ℕ))
    (k : κ) (htbl : ∀ q ∈ tbl, P q.1) (hk : P k) :
    ∀ q ∈ bumpKey tbl k, P q.1 := by
  intro q hq
  unfold bumpKey at hq
  split at hq
  · rcases List.mem_map.mp hq with ⟨p, hp, rfl⟩
    split
    · exact htbl p hp
    · exact htbl p hp
  · rcases List.mem_append.mp hq with h | h
    · exact htbl q h
    · simp only [List.mem_singleton] at h
      subst h
      exact hk

theorem bumpKey_ne_nil [DecidableEq κ] (tbl : List (κ × ℕ)) (k : κ) :
    bumpKey tbl k ≠ [] := by
  unfold bumpKey
  split
  · next hany =>
      intro h
      rw [List.map_eq_nil_iff] at h
      subst h
      simp at hany
  · simp

theorem hourCounts_keys (logs : List LogEntry) :
    ∀ q ∈ hourCounts logs, q.1 < 24 := by
  unfold hourCounts
  have hgen : ∀ (ms : List LogEntry) (tbl : List (ℕ × ℕ)),
      (∀ q ∈ tbl, q.1 < 24) →
      ∀ q ∈ ms.foldl (fun tbl log => bumpKey tbl (hourOf log.timestamp))
        tbl, q.1 < 24 := by
    intro ms
    induction ms with
    | nil => intro tbl htbl; simpa using htbl
    | cons m ms ih =>
        intro tbl htbl
        rw [List.foldl_cons]
        exact ih _ (bumpKey_keys (fun h => h < 24) tbl
          (hourOf m.timestamp) htbl (hourOf_lt _))
  exact hgen logs [] (by simp)

theorem hourCounts_ne_nil (l : LogEntry) (ls : List LogEntry) :
    hourCounts (l :: ls) ≠ [] := by
  unfold hourCounts
  rw [List.foldl_cons]
  have hgen : ∀ (ms : List LogEntry) (tbl : List (ℕ × ℕ)), tbl ≠ [] →
      ms.foldl (fun tbl log => bumpKey tbl (hourOf log.timestamp)) tbl ≠
        [] := by
    intro ms
    induction ms with
    | nil => intro tbl h; simpa using h
    | cons m ms ih =>
        intro tbl h
        rw [List.foldl_cons]
        exact ih _ (bumpKey_ne_nil _ _)
  exact hgen ls _ (bumpKey_ne_nil _ _)

theorem foldl_pickMax_spec (xs : List (ℕ × ℕ)) (b : ℕ × ℕ) :
    (xs.foldl pickMax b = b ∧ ∀ p ∈ xs, p.2 ≤ b.2) ∨
    (∃ pre post, xs = pre ++ xs.foldl pickMax b :: post ∧
      b.2 < (xs.foldl pickMax b).2 ∧
      (∀ p ∈ pre, p.2 < (xs.foldl pickMax b).2) ∧
      ∀ p ∈ xs, p.2 ≤ (xs.foldl pickMax b).2) := by
  induction xs generalizing b with
  | nil => exact Or.inl ⟨rfl, by simp⟩
  | cons x t ih =>
      rw [List.foldl_cons]
      by_cases hx : x.2 ≤ b.2
      · have hstep : pickMax b x = b := by
          unfold pickMax
          rw [if_neg (by omega)]
        rw [hstep]
        rcases ih b with ⟨heq, hall⟩ | ⟨pre, post, hsplit, hlt, hpre, hall⟩
        · refine Or.inl ⟨heq, ?_⟩
          intro p hp
          rcases List.mem_cons.mp hp with rfl | hp
          · exact hx
          · exact hall p hp
        · refine Or.inr ⟨x :: pre, post, ?_, hlt, ?_, ?_⟩
          · rw [List.cons_append, ← hsplit]
          · intro p hp
            rcases List.mem_cons.mp hp with rfl | hp
            · exact lt_of_le_of_lt hx hlt
            · exact hpre p hp
          · intro p hp
            rcases List.mem_cons.mp hp with rfl | hp
            · exact le_of_lt (lt_of_le_of_lt hx hlt)
            · exact hall p hp
      · have hb : b.2 < x.2 := by omega
        have hstep : pickMax b x = x := by
          unfold pickMax
          rw [if_pos hb]
        rw [hstep]
        rcases ih x with ⟨heq, hall⟩ | ⟨pre, post, hsplit, hlt, hpre, hall⟩
        · refine Or.inr ⟨[], t, ?_, ?_, by simp, ?_⟩
          · rw [heq, List.nil_append]
          · rw [heq]
            exact hb
          · intro p hp
            rw [heq]
            rcases List.mem_cons.mp hp with rfl | hp
            · exact le_refl _
            · exact hall p hp
        · refine Or.inr ⟨x :: pre, post, ?_, lt_trans hb hlt, ?_, ?_⟩
          · rw [List.cons_append, ← hsplit]
          · intro p hp
            rcases List.mem_cons.mp hp with rfl | hp
            · exact hlt
            · exact hpre p hp
          · intro p hp
            rcases List.mem_cons.mp hp with rfl | hp
            · exact le_of_lt hlt
            · exact hall p hp

/-- Claim C9, counterexample: two readings at hours 5 and 3 of the day tie
at one reading each, yet the reported most-active hour is 5 — the first
hour inserted into the count table — not the lowest tied hour 3. -/
theorem C9_counterexample :
    getMostActiveHour
      [⟨18000, emptySnapshot, ⟨0, none⟩⟩,
       ⟨10800, emptySnapshot, ⟨0, none⟩⟩] = some (5, 1) ∧
    hourCounts
      [⟨18000, emptySnapshot, ⟨0, none⟩⟩,
       ⟨10800, emptySnapshot, ⟨0, none⟩⟩] = [(5, 1), (3, 1)] ∧
    (3 : ℕ) < 5 := by
  refine ⟨rfl, rfl, by norm_num⟩

/-- Claim C9 (amended): for a non-empty set of in-window entries the
reported most-active hour is an hour of day (0–23) attaining the maximum
reading count, and among tied hours the reported one is the hour whose
first reading appears earliest in the scanned log order (the first-max
scan runs over the count table in insertion order, not over hour
numbers). -/
theorem C9_most_active_hour (logs : List LogEntry) (hne : logs ≠ []) :
    ∃ h c pre post,
      getMostActiveHour logs = some (h, c) ∧
      h < 24 ∧
      hourCounts logs = pre ++ (h, c) :: post ∧
      (∀ q ∈ hourCounts logs, q.2 ≤ c) ∧
      ∀ q ∈ pre, q.2 < c := by
  obtain ⟨x, xs, hx⟩ : ∃ x xs, hourCounts logs = x :: xs := by
    cases hlogs : logs with
    | nil => exact absurd hlogs hne
    | cons l ls =>
        cases hc : hourCounts (l :: ls) with
        | nil => exact absurd hc (hourCounts_ne_nil l ls)
        | cons x xs => exact ⟨x, xs, rfl⟩
  have hget : getMostActiveHour logs = some (xs.foldl pickMax x) := by
    unfold getMostActiveHour
    rw [hx]
  have hkeys := hourCounts_keys logs
  rcases foldl_pickMax_spec xs x with ⟨heq, hall⟩ |
    ⟨pre, post, hsplit, hlt, hpre, hall⟩
  · refine ⟨x.1, x.2, [], xs, ?_, ?_, ?_, ?_, by simp⟩
    · rw [hget, heq]
    · exact hkeys x (by rw [hx]; exact List.mem_cons_self x xs)
    · rw [hx, List.nil_append]
    · intro q hq
      rw [hx] at hq
      rcases List.mem_cons.mp hq with rfl | hq
      · exact le_refl _
      · exact hall q hq
  · obtain ⟨r, hgen⟩ : ∃ r, xs.foldl pickMax x = r := ⟨_, rfl⟩
    rw [hgen] at hsplit hlt hpre hall hget
    refine ⟨r.1, r.2, x :: pre, post, ?_, ?_, ?_, ?_, ?_⟩
    · rw [hget]
    · refine hkeys r ?_
      rw [hx, hsplit]
      simp
    · rw [hx, hsplit, List.cons_append]
    · intro q hq
      rw [hx] at hq
      rcases List.mem_cons.mp hq with rfl | hq
      · exact le_of_lt hlt
      · exact hall q hq
    · intro q hq
      rcases List.mem_cons.mp hq with rfl | hq
      · exact hlt
      · exact hpre q hq

/-- Claim C9 witness: the amended statement evaluated on a single reading
at hour 5. -/
theorem C9_most_active_hour_witness :
    ([⟨18000, emptySnapshot, ⟨0, none⟩⟩] : List LogEntry) ≠ [] ∧
    ∃ h c pre post,
      getMostActiveHour [⟨18000, emptySnapshot, ⟨0, none⟩⟩] = some (h, c) ∧
      h < 24 ∧
      hourCounts [⟨18000, emptySnapshot, ⟨0, none⟩⟩] =
        pre ++ (h, c) :: post ∧
      (∀ q ∈ hourCounts [⟨18000, emptySnapshot, ⟨0, none⟩⟩], q.2 ≤ c) ∧
      ∀ q ∈ pre, q.2 < c :=
  ⟨by simp,
   C9_most_active_hour [⟨18000, emptySnapshot, ⟨0, none⟩⟩] (by simp)⟩

/-- Claim C10: `get_events` truncates to the `limit` most recent events
before filtering by type, so there are ring contents for which it returns
fewer than `limit` events of the requested type even though older matching
events are still present in the ring. -/
theorem C10_truncate_before_filter :
    ∃ (events : List EventEntry) (t : String) (limit : ℕ),
      (getEvents events (some t) limit).length < limit ∧
      limit ≤ (events.filter
        (fun e => e.dataType = some t)).length := by
  refine ⟨[⟨0, "significant_detection", some "significant_detection"⟩,
           ⟨1, "info", none⟩], "significant_detection", 1, ?_, ?_⟩
  · decide
  · decide

end GhostDetector
